import Mathlib

/-!
Verification development for the ARCANE frontend (api.js, game.js, ui.js).

The JavaScript sources are shallowly embedded: payload objects become
structures with `Option` fields for properties that may be absent, JS
dictionary objects become association lists over `String` keys, numbers
that the code treats as reals become `ℚ`, fallible code returns `Except`,
and the `x || d` defaulting idiom becomes explicit helper functions.
-/

/-- JS `s || d` for a possibly-absent string field: `undefined`, `null` and
the empty string are falsy, so they yield the default. -/
def jsOr (o : Option String) (d : String) : String :=
  match o with
  | some s => if s = "" then d else s
  | none => d

/-- JS dictionary read `obj[k]` over an association-list model of an object. -/
def getKey {α : Type} (k : String) : List (String × α) → Option α
  | [] => none
  | (k', v) :: rest => if k' = k then some v else getKey k rest

/-- JS dictionary write `obj[k] = v`: replace the binding when the key is
present, append it otherwise. -/
def setKey {α : Type} (k : String) (v : α) : List (String × α) → List (String × α)
  | [] => [(k, v)]
  | (k', v') :: rest => if k' = k then (k, v) :: rest else (k', v') :: setKey k v rest

/-- AgentState payload entry of a Snapshot (`state.agents[id]` in the JS).
`pos` is modelled as optional so that a payload missing the grid position
can be expressed; the other optional fields use the `||` defaulting idiom
at their use sites. -/
structure AgentEntry where
  name : String
  sprite : String
  type : Option String
  pos : Option (Int × Int)
  location : Option String
  activity : Option String
  pronunciatio : Option String
deriving DecidableEq, Repr

/-- Snapshot payload returned by `/api/state` (api.js fetchState). -/
structure Snap where
  step : Int
  sim_time : Option String
  agents : Option (List (String × AgentEntry))
deriving DecidableEq, Repr

/-- EventRecord payload entry (`data.events[i]` of `/api/events`). -/
structure EventRecord where
  type : String
  timestamp : Option String
  content : Option String
deriving DecidableEq, Repr

/-- Events payload returned by `/api/events` (api.js fetchEvents). -/
structure EventsMsg where
  events : Option (List EventRecord)
deriving DecidableEq, Repr

/-- TargetResult entry of the results payload (the fields the UI reads in
`_renderResultsHTML`'s trust-bar logic). -/
structure TargetResult where
  target_name : String
  trust_level : Option ℚ
  current_phase : Int
deriving DecidableEq, Repr

/-- Results payload returned by `/api/results` and `/api/history/{runId}`. -/
structure ResultsMsg where
  error : Option String
  targets : Option (List TargetResult)
deriving DecidableEq, Repr

/-- A server response as seen by the fetch helpers in api.js: a JSON body,
a non-2xx HTTP status (`!resp.ok`), or a thrown network error. -/
inductive Response (α : Type) where
  | success (payload : α)
  | httpError (code : Nat)
  | networkError
deriving DecidableEq, Repr

/-- The `fetchState`/`fetchEvents`/`fetchResults` wrappers in api.js map a
non-ok response and a thrown error both to `null`. -/
def fetchOutcome {α : Type} : Response α → Option α
  | .success a => some a
  | .httpError _ => none
  | .networkError => none

/-- A network read issued by the poll tick. -/
inductive Req where
  | state
  | events (n : Nat)
  | results
deriving DecidableEq, Repr

/-- A dispatch to a registered observer callback. -/
inductive Disp where
  | state (s : Snap)
  | events (e : EventsMsg)
  | results (r : ResultsMsg)
deriving DecidableEq, Repr

/-- Which observer callbacks are registered (`_onStateUpdate` etc.). -/
structure CallbackFlags where
  hasState : Bool
  hasEvents : Bool
  hasResults : Bool
deriving DecidableEq, Repr

/-- One tick of the `setInterval` callback installed by `startPolling`
(api.js lines 105-118), as a function of the previous `_lastStep` and the
responses the three fetches would produce this tick.  Returns the new
`_lastStep`, the list of reads issued, and the dispatches made, in order.
The state read always happens; the events and results reads happen only
when the fetched `step` differs from `_lastStep` (`state.step !== _lastStep`),
and each dependent dispatch happens only when its payload is non-null and
its callback is registered. -/
def pollTick (cbs : CallbackFlags) (lastStep : Int) (stR : Response Snap)
    (evR : Response EventsMsg) (resR : Response ResultsMsg) :
    Int × List Req × List Disp :=
  match fetchOutcome stR with
  | none => (lastStep, [Req.state], [])
  | some st =>
    if st.step = lastStep then (lastStep, [Req.state], [])
    else
      let stateDisp := if cbs.hasState then [Disp.state st] else []
      let evDisp :=
        match fetchOutcome evR with
        | some ev => if cbs.hasEvents then [Disp.events ev] else []
        | none => []
      let resDisp :=
        match fetchOutcome resR with
        | some r => if cbs.hasResults then [Disp.results r] else []
        | none => []
      (st.step, [Req.state, Req.events 50, Req.results], stateDisp ++ evDisp ++ resDisp)

/-- The browser timer table as seen by api.js: the next timer id the host
would allocate (browser timer ids are positive integers, so the stored
handle is always truthy and `if (_pollInterval)` is a null test), the ids
of currently active interval timers, and the module variable
`_pollInterval` (`none` models its initial `null`). -/
structure TimerWorld where
  nextId : Nat
  active : List Nat
  pollHandle : Option Nat
deriving DecidableEq, Repr

/-- JS `clearInterval(id)`: deactivate the timer with that id. -/
def clearIntervalTimer (id : Nat) (w : TimerWorld) : TimerWorld :=
  { w with active := w.active.filter (fun i => i ≠ id) }

/-- JS `setInterval(cb, ms)`: allocate a fresh timer id and activate it. -/
def setIntervalTimer (w : TimerWorld) : Nat × TimerWorld :=
  (w.nextId, { w with nextId := w.nextId + 1, active := w.active ++ [w.nextId] })

/-- api.js `startPolling` lines 102-104 as a state transformer on the timer
table: clear the previously stored interval handle when one is set, then
install a fresh interval timer and store its handle in `_pollInterval`. -/
def startPolling (w : TimerWorld) : TimerWorld :=
  let w1 :=
    match w.pollHandle with
    | some h => clearIntervalTimer h w
    | none => w
  let idw := setIntervalTimer w1
  { idw.2 with pollHandle := some idw.1 }

/-- Invariant of the api.js timer usage: every active timer is the one held
in `_pollInterval` (so there is at most one), and the active list has no
duplicates. -/
def timerInv (w : TimerWorld) : Prop :=
  (∀ i ∈ w.active, w.pollHandle = some i) ∧ w.active.Nodup

/-- Start time of the n-th poll read chain (0-indexed): `setInterval`
(api.js line 105) fires the callback at fixed multiples of the interval,
unconditionally — no field of `ArcaneAPI` records whether the previous
callback's awaited fetches have resolved, so nothing delays or skips a
firing. -/
def chainStart (intervalMs n : Nat) : Nat := intervalMs * (n + 1)

/-- Read chain n is still outstanding at time t: it has started and the
total latency of its awaited fetches has not yet elapsed. -/
def chainOutstanding (intervalMs : Nat) (latency : Nat → Nat) (n t : Nat) : Prop :=
  chainStart intervalMs n ≤ t ∧ t < chainStart intervalMs n + latency n

/-- Continuous-space position (pixels), game.js. Coordinates are modelled
as rationals. -/
structure Vec where
  x : ℚ
  y : ℚ
deriving DecidableEq, Repr

/-- game.js `TILE_SIZE`. -/
def TILE_SIZE : ℚ := 32

/-- Squared distance between a target and a visual position.  game.js
computes `dist = Math.sqrt(dx*dx + dy*dy)` and compares `dist > 2`; since
both sides are nonnegative this is equivalent to `dx*dx + dy*dy > 4`, and
the embedding uses the squared form to stay inside ℚ. -/
def distSq (target pos : Vec) : ℚ :=
  (target.x - pos.x) * (target.x - pos.x) + (target.y - pos.y) * (target.y - pos.y)

/-- One rendering-frame update of a visual position toward its target
(game.js update(), lines 349-377): if the remaining distance exceeds the
snap threshold 2, lerp by `lerpSpeed = 0.05`; otherwise snap exactly to the
target. -/
def frameStep (target pos : Vec) : Vec :=
  let dx := target.x - pos.x
  let dy := target.y - pos.y
  if 4 < dx * dx + dy * dy then
    ⟨pos.x + dx * (5 / 100), pos.y + dy * (5 / 100)⟩
  else
    target

/-- n successive rendering-frame updates. -/
def iterateFrames (target : Vec) : Nat → Vec → Vec
  | 0, pos => pos
  | n + 1, pos => frameStep target (iterateFrames target n pos)

/-- Per-agent animation state: idle (animation stopped) or one walking
direction. -/
inductive AnimState where
  | idle
  | walkLeft
  | walkRight
  | walkUp
  | walkDown
deriving DecidableEq, Repr

/-- Animation outcome of one frame for one agent as a function of the
displacement (dx, dy) = target − sprite position (game.js update(), lines
353-380): below the snap threshold the animation is stopped (idle);
otherwise the axis with the strictly larger magnitude picks the direction
(`Math.abs(dx) > Math.abs(dy)`), its sign picking right/left or down/up. -/
def animForDisp (dx dy : ℚ) : AnimState :=
  if 4 < dx * dx + dy * dy then
    if |dy| < |dx| then
      if 0 < dx then .walkRight else .walkLeft
    else
      if 0 < dy then .walkDown else .walkUp
  else
    .idle

/-- Modelled from the spec: the claimed direction-inference table.
`|dx| > |dy|` yields right when dx > 0 and left when dx < 0; otherwise down
when dy > 0 and up when dy < 0; `none` marks a displacement for which the
claim's cases assign no direction. -/
def claimDirection (dx dy : ℚ) : Option AnimState :=
  if |dy| < |dx| then
    if 0 < dx then some .walkRight else if dx < 0 then some .walkLeft else none
  else
    if 0 < dy then some .walkDown else if dy < 0 then some .walkUp else none

/-- A rendered sprite entity (position, texture key, optional tint). -/
structure SpriteEnt where
  x : ℚ
  y : ℚ
  key : String
  tint : Option Nat
deriving DecidableEq, Repr

/-- A rendered name-label entity. -/
structure LabelEnt where
  x : ℚ
  y : ℚ
  text : String
  color : String
deriving DecidableEq, Repr

/-- A rendered emoji (pronunciatio) entity. -/
structure EmojiEnt where
  x : ℚ
  y : ℚ
  text : String
deriving DecidableEq, Repr

/-- The module-level render dictionaries of game.js: `agentSprites`,
`agentLabels`, `agentEmojis`, `agentTargetPos`. -/
structure RenderEnv where
  sprites : List (String × SpriteEnt)
  labels : List (String × LabelEnt)
  emojis : List (String × EmojiEnt)
  targets : List (String × Vec)
deriving DecidableEq, Repr

/-- The scene facts `_createAgentSprite` consults: which texture keys have
been loaded (`this.textures.exists`). -/
structure SceneCtx where
  textures : List String
deriving DecidableEq, Repr

/-- game.js `_createAgentSprite` (lines 273-325): create sprite (falling
back to the profile image when the walk sheet texture is missing), tint
deviants, then create the name label and the pronunciatio emoji, and seed
the interpolation target at the same point. -/
def createAgentSprite (ctx : SceneCtx) (id : String) (ag : AgentEntry)
    (wx wy : ℚ) (env : RenderEnv) : RenderEnv :=
  let spriteKey := "sprite_" ++ ag.sprite
  let hasSprite := ctx.textures.contains spriteKey
  let key := if hasSprite then spriteKey else "profile_" ++ ag.sprite
  let tint : Option Nat := if ag.type = some "deviant" then some 0xffcccc else none
  let labelColor := if ag.type = some "deviant" then "#ff6b6b" else "#60a5fa"
  let emojiText := jsOr ag.pronunciatio "💬"
  { env with
    sprites := setKey id ⟨wx, wy, key, tint⟩ env.sprites,
    targets := setKey id ⟨wx, wy⟩ env.targets,
    labels := setKey id ⟨wx, wy + 20, ag.name, labelColor⟩ env.labels,
    emojis := setKey id ⟨wx, wy - 22, emojiText⟩ env.emojis }

/-- The loop body of `_updateAgents` (game.js lines 259-270) over the
snapshot's agent entries.  Reading `agent.pos[0]` when the entry has no
`pos` throws a TypeError, modelled as `Except.error`. -/
def updateAgentsList (ctx : SceneCtx) :
    List (String × AgentEntry) → RenderEnv → Except String RenderEnv
  | [], env => Except.ok env
  | (id, ag) :: rest, env =>
    match ag.pos with
    | none => Except.error "TypeError: cannot read pos of agent entry"
    | some p =>
      let wx : ℚ := p.1 * TILE_SIZE + TILE_SIZE / 2
      let wy : ℚ := p.2 * TILE_SIZE + TILE_SIZE / 2
      if (getKey id env.sprites).isSome then
        updateAgentsList ctx rest { env with targets := setKey id ⟨wx, wy⟩ env.targets }
      else
        updateAgentsList ctx rest (createAgentSprite ctx id ag wx wy env)

/-- game.js `_updateAgents` (lines 256-271): return untouched when the
state is null or has no `agents` field, else process every entry of the
current snapshot. -/
def updateAgents (ctx : SceneCtx) (st : Option Snap) (env : RenderEnv) :
    Except String RenderEnv :=
  match st with
  | none => Except.ok env
  | some s =>
    match s.agents with
    | none => Except.ok env
    | some ags => updateAgentsList ctx ags env

/-- A state payload is well-formed for `_updateAgents` when every agent
entry it does carry has a grid position. -/
def wfAgents (st : Option Snap) : Bool :=
  match st with
  | none => true
  | some s =>
    match s.agents with
    | none => true
    | some ags => ags.all (fun p => p.2.pos.isSome)

/-- Character-level behavior of ui.js `_escapeHtml` (`div.textContent = text;
return div.innerHTML`): serializing a text node escapes the markup-significant
characters `&`, `<`, `>` as entities and leaves every other character (quotes
included) as is. -/
def escapeChar (c : Char) : List Char :=
  if c = '&' then ['&', 'a', 'm', 'p', ';']
  else if c = '<' then ['&', 'l', 't', ';']
  else if c = '>' then ['&', 'g', 't', ';']
  else [c]

/-- ui.js `_escapeHtml` on a whole string. -/
def escapeHtml (s : String) : String :=
  String.mk (s.data.flatMap escapeChar)

/-- Number of occurrences of `<` in a string — each one opens a tag in the
rendered markup, so this counts the structure-significant openings. -/
def countLt (s : String) : Nat :=
  s.data.count '<'

/-- One entry of the event log, ui.js `updateEventLog` (part_000 lines
53-61): the category tag and the timestamp are interpolated raw, the
content passes through `_escapeHtml`. -/
def renderEventEntry (e : EventRecord) : String :=
  let cssClass := "evt-" ++ e.type
  let ts := jsOr e.timestamp ""
  let content := escapeHtml (jsOr e.content "")
  "<div class=\"event-entry " ++ cssClass ++ "\">" ++
    "<span class=\"timestamp\">" ++ ts ++ "</span>" ++
    content ++
    "</div>"

/-- ui.js `updateEventLog` (lines 45-65): leave the container untouched
(`none`) when the payload is null, has no `events`, or is empty; otherwise
replace its markup with the entries most-recent-first. -/
def updateEventLog (eventsData : Option EventsMsg) : Option String :=
  match eventsData with
  | none => none
  | some d =>
    match d.events with
    | none => none
    | some evs =>
      if evs.length = 0 then none
      else some (String.join ((evs.reverse).map renderEventEntry))

/-- One roster card, ui.js `updateAgentCards` (part_000 lines 75-88), for an
agent whose `pos` read succeeded with (px, py).  The name, location and
activity shown as element text pass through `_escapeHtml`; the same name is
also interpolated raw into the `alt` attribute of the portrait, and the id,
type class and sprite key are interpolated raw. -/
def agentCardHtml (id : String) (a : AgentEntry) (px py : Int) : String :=
  let typeClass := jsOr a.type "benign"
  let portraitUrl := "/assets/characters/profile/" ++ a.sprite ++ ".png"
  "<div class=\"agent-card " ++ typeClass ++ "\" data-agent-id=\"" ++ id ++ "\">" ++
    "  <div class=\"agent-card-header\">" ++
    "    <img class=\"agent-portrait\" src=\"" ++ portraitUrl ++ "\" alt=\"" ++ a.name ++
      "\" onerror=\"this.style.display=\x27none\x27\">" ++
    "    <span class=\"agent-name\">" ++ escapeHtml a.name ++ "</span>" ++
    "    <span class=\"agent-type-badge " ++ typeClass ++ "\">" ++ typeClass ++ "</span>" ++
    "  </div>" ++
    "  <div class=\"agent-detail\"><strong>Location:</strong> " ++
      escapeHtml (jsOr a.location "unknown") ++ "</div>" ++
    "  <div class=\"agent-detail\"><strong>Activity:</strong> " ++
      escapeHtml (jsOr a.activity "idle") ++ "</div>" ++
    "  <div class=\"agent-detail\"><strong>Pos:</strong> (" ++ toString px ++ ", " ++
      toString py ++ ")</div>" ++
    "</div>"

/-- Modelled from the spec: the same roster card with every free-text field
passed through exactly one sanitization step before placement — in
particular the display name is escaped in the `alt` attribute as well, as
§4.4's "every free-text field … passes through exactly one sanitization
step" requires. -/
def agentCardHtmlSpec (id : String) (a : AgentEntry) (px py : Int) : String :=
  let typeClass := jsOr a.type "benign"
  let portraitUrl := "/assets/characters/profile/" ++ a.sprite ++ ".png"
  "<div class=\"agent-card " ++ typeClass ++ "\" data-agent-id=\"" ++ id ++ "\">" ++
    "  <div class=\"agent-card-header\">" ++
    "    <img class=\"agent-portrait\" src=\"" ++ portraitUrl ++ "\" alt=\"" ++
      escapeHtml a.name ++
      "\" onerror=\"this.style.display=\x27none\x27\">" ++
    "    <span class=\"agent-name\">" ++ escapeHtml a.name ++ "</span>" ++
    "    <span class=\"agent-type-badge " ++ typeClass ++ "\">" ++ typeClass ++ "</span>" ++
    "  </div>" ++
    "  <div class=\"agent-detail\"><strong>Location:</strong> " ++
      escapeHtml (jsOr a.location "unknown") ++ "</div>" ++
    "  <div class=\"agent-detail\"><strong>Activity:</strong> " ++
      escapeHtml (jsOr a.activity "idle") ++ "</div>" ++
    "  <div class=\"agent-detail\"><strong>Pos:</strong> (" ++ toString px ++ ", " ++
      toString py ++ ")</div>" ++
    "</div>"

/-- JS `Math.round` on the nonnegative rationals this UI feeds it: round
half away from zero, i.e. `⌊x + 1/2⌋`. -/
def jsRound (x : ℚ) : ℤ := ⌊x + 1 / 2⌋

/-- ui.js `_renderResultsHTML` line 165: `Math.round((t.trust_level || 0) * 100)`. -/
def trustPctOf (trust : ℚ) : ℤ := jsRound (trust * 100)

/-- ui.js `_renderResultsHTML` lines 166-168: start from the default color,
overwrite with the warning color when the rounded percentage exceeds 60,
then with the critical color when it exceeds 80. -/
def trustColorOf (trust : ℚ) : String :=
  let trustPct := trustPctOf trust
  let c0 := "#3498db"
  let c1 := if 60 < trustPct then "#ff6600" else c0
  if 80 < trustPct then "#ff0000" else c1

/-- The trust-bar color of one target card, including the `(t.trust_level
|| 0)` defaulting. -/
def trustColorOfTarget (t : TargetResult) : String :=
  trustColorOf (t.trust_level.getD 0)

/-- A network read issued by the history panel. -/
inductive FetchReq where
  | history
  | historyRun (runId : String)
deriving DecidableEq, Repr

/-- HistoryRunSummary payload entry (`data.runs[i]` of `/api/history`). -/
structure RunSummary where
  run_id : String
  date : String
  steps : Int
  reveals : Int
  size_kb : Int
deriving DecidableEq, Repr

/-- History-list payload returned by `/api/history`. -/
structure HistoryMsg where
  runs : Option (List RunSummary)
deriving DecidableEq, Repr

/-- What the history panel currently shows. -/
inductive HPanel where
  | blank
  | noRuns
  | listView (runs : List RunSummary)
  | runView (runId : String)
  | errorView (msg : String)
deriving DecidableEq, Repr

/-- The history-browser state of ui.js: the module flag `_historyLoaded`,
the cumulative trace of network reads it has issued, and the panel
contents. -/
structure HState where
  historyLoaded : Bool
  fetches : List FetchReq
  panel : HPanel
deriving DecidableEq, Repr

/-- ui.js `loadHistoryList` (part_000 lines 241-271): always awaits
`ArcaneAPI.fetchHistory()` — the run list is not cached anywhere — then
renders the placeholder or the list. -/
def loadHistoryList (resp : Option HistoryMsg) (s : HState) : HState :=
  let s1 := { s with fetches := s.fetches ++ [FetchReq.history] }
  match resp with
  | none => { s1 with panel := .noRuns }
  | some d =>
    match d.runs with
    | none => { s1 with panel := .noRuns }
    | some rs => if rs.length = 0 then { s1 with panel := .noRuns } else { s1 with panel := .listView rs }

/-- ui.js `loadHistoricalRun` (lines 273-286): always awaits
`ArcaneAPI.fetchHistoricalResults(runId)`, then renders the error message
or the back button plus the results view. -/
def loadHistoricalRun (runId : String) (resp : Option ResultsMsg) (s : HState) : HState :=
  let s1 := { s with fetches := s.fetches ++ [FetchReq.historyRun runId] }
  match resp with
  | none => { s1 with panel := .errorView "Failed to load" }
  | some d =>
    match d.error with
    | some e => { s1 with panel := .errorView e }
    | none => { s1 with panel := .runView runId }

/-- The history-tab click handler (ui.js `_setupTabs`, lines 26-29): the
list is loaded only when the `_historyLoaded` flag is still false, and the
flag is then set. -/
def clickHistoryTab (resp : Option HistoryMsg) (s : HState) : HState :=
  if s.historyLoaded then s
  else { loadHistoryList resp s with historyLoaded := true }

/-- Clicking one run entry of the rendered list (ui.js lines 266-270). -/
def clickHistoryEntry (runId : String) (resp : Option ResultsMsg) (s : HState) : HState :=
  loadHistoricalRun runId resp s

/-- The back button rendered above a historical run's results (ui.js line
283) — its onclick invokes `ArcaneUI.loadHistoryList()` again. -/
def clickBack (resp : Option HistoryMsg) (s : HState) : HState :=
  loadHistoryList resp s

/-- Scene context used by concrete instances: the Adam_Smith walk sheet is
loaded. -/
def ctxW : SceneCtx := ⟨["sprite_Adam_Smith"]⟩

/-- Empty render dictionaries. -/
def envEmpty : RenderEnv := ⟨[], [], [], []⟩

/-- A well-formed agent entry used by concrete instances. -/
def agOk : AgentEntry := ⟨"Adam", "Adam_Smith", none, some (2, 3), none, none, none⟩

/-- An agent entry whose payload is missing the grid position. -/
def agNoPos : AgentEntry := ⟨"Adam", "Adam_Smith", none, none, none, none, none⟩

/-- A per-chain fetch latency that stays within an 800 ms poll interval. -/
def latFast : Nat → Nat := fun _ => 300

/-- A per-chain fetch latency that exceeds an 800 ms poll interval. -/
def latSlow : Nat → Nat := fun _ => 2000

/-- An agent whose display name contains markup. -/
def agCex : AgentEntry := ⟨"<x>", "Adam_Smith", none, some (2, 3), none, none, none⟩

/-- A run summary used by the history instances. -/
def runR1 : RunSummary := ⟨"R1", "2026-01-01", 10, 2, 5⟩

/-- A history-list response carrying one run. -/
def histResp : Option HistoryMsg := some ⟨some [runR1]⟩

/-- A successful historical-results response. -/
def runResp : Option ResultsMsg := some ⟨none, some []⟩

/-- A history state in which the list has already been loaded once. -/
def sLoaded : HState := ⟨true, [FetchReq.history], HPanel.listView [runR1]⟩

/-- Render dictionaries holding entities for an agent "b1" that the next
snapshot no longer mentions. -/
def envB : RenderEnv :=
  ⟨[("b1", ⟨0, 0, "profile_Ben", none⟩)],
   [("b1", ⟨0, 20, "Ben", "#60a5fa"⟩)],
   [("b1", ⟨0, -22, "💬"⟩)],
   [("b1", ⟨0, 0⟩)]⟩

/-- A snapshot mentioning only agent "a1". -/
def stW : Snap := ⟨1, some "9:00", some [("a1", agOk)]⟩

/-- The render dictionaries after processing `stW` from `envB`: a sprite,
label, emoji and target are created for "a1". -/
def envBafter : RenderEnv :=
  createAgentSprite ctxW "a1" agOk (((2 : ℤ) : ℚ) * TILE_SIZE + TILE_SIZE / 2)
    (((3 : ℤ) : ℚ) * TILE_SIZE + TILE_SIZE / 2) envB

/-- Every entry of the agents list carrying a position makes the update
loop succeed. -/
theorem updateAgentsList_isOk (ctx : SceneCtx) :
    ∀ (ags : List (String × AgentEntry)) (env : RenderEnv),
      (∀ p ∈ ags, p.2.pos.isSome = true) → (updateAgentsList ctx ags env).isOk = true
  | [], _, _ => rfl
  | (id, ag) :: rest, env, h => by
    have hpos : ag.pos.isSome = true := h (id, ag) (List.mem_cons_self _ _)
    obtain ⟨p, hp⟩ := Option.isSome_iff_exists.mp hpos
    have hrest : ∀ q ∈ rest, q.2.pos.isSome = true := fun q hq => h q (List.mem_cons_of_mem _ hq)
    simp only [updateAgentsList, hp]
    by_cases hSp : (getKey id env.sprites).isSome
    · rw [if_pos hSp]
      exact updateAgentsList_isOk ctx rest _ hrest
    · rw [if_neg hSp]
      exact updateAgentsList_isOk ctx rest _ hrest

/-- Claim C3 (amended): a failed fetch (non-success response) is mapped to
null and the tick is skipped with only the state read issued, and a payload
that is null or missing the whole `agents` map leaves the render state
untouched; moreover the agent-update step succeeds whenever every agent
entry present carries a grid position.  (As the counterexample shows, an
agent entry without a grid position is NOT treated as no-data: it throws.) -/
theorem c3_missing_fields_skipped (ctx : SceneCtx) (env : RenderEnv) (st : Option Snap)
    (s' : Snap) (cbs : CallbackFlags) (s : Int) (code : Nat)
    (evR : Response EventsMsg) (resR : Response ResultsMsg)
    (h1 : wfAgents st = true) (h2 : s'.agents = none) :
    (updateAgents ctx st env).isOk = true ∧
    updateAgents ctx (some s') env = Except.ok env ∧
    pollTick cbs s (Response.httpError code) evR resR = (s, [Req.state], []) ∧
    pollTick cbs s Response.networkError evR resR = (s, [Req.state], []) := by
  refine ⟨?_, ?_, rfl, rfl⟩
  · cases st with
    | none => rfl
    | some sn =>
      cases hag : sn.agents with
      | none => simp [updateAgents, hag, Except.isOk, Except.toBool]
      | some ags =>
        simp only [updateAgents, hag]
        apply updateAgentsList_isOk
        intro p hp
        simp only [wfAgents, hag, List.all_eq_true] at h1
        exact h1 p hp
  · simp [updateAgents, h2]

/-- Witness for C3 at concrete inputs. -/
theorem c3_missing_fields_skipped_witness :
    wfAgents (some ⟨4, none, some [("a1", agOk)]⟩) = true ∧
    (Snap.mk 5 none none).agents = none ∧
    ((updateAgents ctxW (some ⟨4, none, some [("a1", agOk)]⟩) envEmpty).isOk = true ∧
      updateAgents ctxW (some (Snap.mk 5 none none)) envEmpty = Except.ok envEmpty ∧
      pollTick ⟨true, true, true⟩ 3 (Response.httpError 500) Response.networkError
        Response.networkError = (3, [Req.state], []) ∧
      pollTick ⟨true, true, true⟩ 3 Response.networkError Response.networkError
        Response.networkError = (3, [Req.state], [])) :=
  ⟨by decide, rfl,
    c3_missing_fields_skipped ctxW envEmpty (some ⟨4, none, some [("a1", agOk)]⟩)
      (Snap.mk 5 none none) ⟨true, true, true⟩ 3 500 Response.networkError
      Response.networkError (by decide) rfl⟩

/-- Counterexample for C3 as stated: a payload whose agent entry is missing
its grid position is not treated as "no data" — the update path throws a
TypeError (modelled as `Except.error`) instead of silently skipping the
tick. -/
theorem c3_missing_pos_throws :
    updateAgents ctxW (some ⟨4, none, some [("a1", agNoPos)]⟩) envEmpty =
      Except.error "TypeError: cannot read pos of agent entry" := rfl

/-- Claim C5 (amended): `startPolling` installs the tick with `setInterval`
and keeps no in-flight flag, so chain n does not overlap the next tick only
when its own latency fits within the interval; there is no re-entrancy
guard in the code (see the counterexample for the overlapping case). -/
theorem c5_no_overlap_when_fast (intervalMs : Nat) (latency : Nat → Nat) (n : Nat)
    (h : latency n ≤ intervalMs) :
    ¬ chainOutstanding intervalMs latency n (chainStart intervalMs (n + 1)) := by
  intro hc
  obtain ⟨h1, h2⟩ := hc
  unfold chainStart at h2
  rw [Nat.mul_succ intervalMs (n + 1)] at h2
  omega

/-- Witness for C5 at concrete inputs. -/
theorem c5_no_overlap_when_fast_witness :
    latFast 0 ≤ 800 ∧
    ¬ chainOutstanding 800 latFast 0 (chainStart 800 (0 + 1)) :=
  ⟨by decide, c5_no_overlap_when_fast 800 latFast 0 (by decide)⟩

/-- Counterexample for C5 as stated: with the 800 ms interval game.js uses
and a chain whose fetches take 2000 ms, the chain started at the first tick
is still outstanding when the second tick begins its new read chain — the
engine has no re-entrancy guard. -/
theorem c5_overlapping_chains_exist :
    chainOutstanding 800 latSlow 0 (chainStart 800 1) :=
  ⟨by decide, by decide⟩

/-- Claim C6: when the fetched state's `step` equals the last observed
step, the tick issues only the state read — zero additional event or
result reads — and dispatches to no observers. -/
theorem c6_equal_step_no_reads (cbs : CallbackFlags) (s : Int) (st : Snap)
    (evR : Response EventsMsg) (resR : Response ResultsMsg) (h : st.step = s) :
    pollTick cbs s (Response.success st) evR resR = (s, [Req.state], []) := by
  simp [pollTick, fetchOutcome, h]

/-- Witness for C6 at concrete inputs. -/
theorem c6_equal_step_no_reads_witness :
    (Snap.mk 7 (some "t") none).step = 7 ∧
    pollTick ⟨true, true, true⟩ 7 (Response.success (Snap.mk 7 (some "t") none))
      Response.networkError Response.networkError = (7, [Req.state], []) :=
  ⟨rfl, c6_equal_step_no_reads ⟨true, true, true⟩ 7 (Snap.mk 7 (some "t") none)
    Response.networkError Response.networkError rfl⟩

/-- Writing one key leaves reads of a different key unchanged. -/
theorem getKey_setKey_ne {α : Type} (k id : String) (hne : k ≠ id) (v : α) :
    ∀ l : List (String × α), getKey id (setKey k v l) = getKey id l
  | [] => by simp [setKey, getKey, hne]
  | (k', v') :: rest => by
    simp only [setKey]
    by_cases hk : k' = k
    · rw [if_pos hk]
      have h2 : ¬ (k' = id) := by rw [hk]; exact hne
      simp only [getKey]
      rw [if_neg hne, if_neg h2]
    · rw [if_neg hk]
      simp only [getKey]
      by_cases h2 : k' = id
      · rw [if_pos h2, if_pos h2]
      · rw [if_neg h2, if_neg h2]
        exact getKey_setKey_ne k id hne v rest

/-- Reading back the key just written yields the written value. -/
theorem getKey_setKey_self {α : Type} (k : String) (v : α) :
    ∀ l : List (String × α), getKey k (setKey k v l) = some v
  | [] => by simp [setKey, getKey]
  | (k', v') :: rest => by
    by_cases hk : k' = k
    · simp [setKey, getKey, hk]
    · simp [setKey, getKey, hk, getKey_setKey_self k v rest]

/-- Writing any key never removes an existing binding. -/
theorem getKey_setKey_isSome {α : Type} (k id : String) (v : α) (l : List (String × α))
    (h : (getKey id l).isSome = true) : (getKey id (setKey k v l)).isSome = true := by
  by_cases hk : k = id
  · rw [hk, getKey_setKey_self]
    rfl
  · rw [getKey_setKey_ne k id hk v l]
    exact h

/-- `_createAgentSprite` touches only the four bindings of the created
agent's own id. -/
theorem createAgentSprite_absent (ctx : SceneCtx) (k : String) (ag : AgentEntry)
    (wx wy : ℚ) (env : RenderEnv) (id : String) (hk : k ≠ id) :
    getKey id (createAgentSprite ctx k ag wx wy env).sprites = getKey id env.sprites ∧
    getKey id (createAgentSprite ctx k ag wx wy env).labels = getKey id env.labels ∧
    getKey id (createAgentSprite ctx k ag wx wy env).emojis = getKey id env.emojis ∧
    getKey id (createAgentSprite ctx k ag wx wy env).targets = getKey id env.targets := by
  simp only [createAgentSprite]
  exact ⟨getKey_setKey_ne k id hk _ _, getKey_setKey_ne k id hk _ _,
    getKey_setKey_ne k id hk _ _, getKey_setKey_ne k id hk _ _⟩

/-- The update loop leaves every binding of an id absent from the processed
agents list unchanged, in all four dictionaries. -/
theorem updateAgentsList_absent (ctx : SceneCtx) :
    ∀ (ags : List (String × AgentEntry)) (env env' : RenderEnv) (id : String),
      getKey id ags = none → updateAgentsList ctx ags env = Except.ok env' →
      getKey id env'.sprites = getKey id env.sprites ∧
      getKey id env'.labels = getKey id env.labels ∧
      getKey id env'.emojis = getKey id env.emojis ∧
      getKey id env'.targets = getKey id env.targets
  | [], env, env', id, _, hok => by
    simp only [updateAgentsList, Except.ok.injEq] at hok
    rw [← hok]
    exact ⟨rfl, rfl, rfl, rfl⟩
  | (k, ag) :: rest, env, env', id, habs, hok => by
    have hk : ¬ (k = id) := by
      intro h
      simp [getKey, h] at habs
    have hrest : getKey id rest = none := by
      simpa [getKey, hk] using habs
    cases hp : ag.pos with
    | none => simp [updateAgentsList, hp] at hok
    | some p =>
      simp only [updateAgentsList, hp] at hok
      by_cases hs : (getKey k env.sprites).isSome = true
      · rw [if_pos hs] at hok
        obtain ⟨h1, h2, h3, h4⟩ := updateAgentsList_absent ctx rest _ env' id hrest hok
        refine ⟨h1, h2, h3, ?_⟩
        rw [h4]
        exact getKey_setKey_ne k id hk _ env.targets
      · rw [if_neg hs] at hok
        obtain ⟨h1, h2, h3, h4⟩ := updateAgentsList_absent ctx rest _ env' id hrest hok
        obtain ⟨g1, g2, g3, g4⟩ := createAgentSprite_absent ctx k ag _ _ env id hk
        exact ⟨h1.trans g1, h2.trans g2, h3.trans g3, h4.trans g4⟩

/-- The update loop never removes a sprite binding. -/
theorem updateAgentsList_sprites_grow (ctx : SceneCtx) :
    ∀ (ags : List (String × AgentEntry)) (env env' : RenderEnv) (k : String),
      updateAgentsList ctx ags env = Except.ok env' →
      (getKey k env.sprites).isSome = true → (getKey k env'.sprites).isSome = true
  | [], env, env', k, hok, hs => by
    simp only [updateAgentsList, Except.ok.injEq] at hok
    rw [← hok]
    exact hs
  | (k0, ag) :: rest, env, env', k, hok, hs => by
    cases hp : ag.pos with
    | none => simp [updateAgentsList, hp] at hok
    | some p =>
      simp only [updateAgentsList, hp] at hok
      by_cases hsp : (getKey k0 env.sprites).isSome = true
      · rw [if_pos hsp] at hok
        exact updateAgentsList_sprites_grow ctx rest _ env' k hok hs
      · rw [if_neg hsp] at hok
        apply updateAgentsList_sprites_grow ctx rest _ env' k hok
        simp only [createAgentSprite]
        exact getKey_setKey_isSome k0 k _ _ hs

/-- Claim C9: when the agent-update step succeeds on a snapshot that does
not mention identifier `id`, every render binding of `id` — sprite, label,
emoji and interpolation target — is left exactly as it was, and no existing
sprite binding is ever removed: entities are only created or retargeted for
identifiers present in the snapshot. -/
theorem c9_absent_agent_untouched (ctx : SceneCtx) (st : Snap)
    (ags : List (String × AgentEntry)) (env env' : RenderEnv) (id k : String)
    (hags : st.agents = some ags) (habs : getKey id ags = none)
    (hok : updateAgents ctx (some st) env = Except.ok env')
    (hk : (getKey k env.sprites).isSome = true) :
    getKey id env'.sprites = getKey id env.sprites ∧
    getKey id env'.labels = getKey id env.labels ∧
    getKey id env'.emojis = getKey id env.emojis ∧
    getKey id env'.targets = getKey id env.targets ∧
    (getKey k env'.sprites).isSome = true := by
  simp only [updateAgents, hags] at hok
  obtain ⟨h1, h2, h3, h4⟩ := updateAgentsList_absent ctx ags env env' id habs hok
  exact ⟨h1, h2, h3, h4, updateAgentsList_sprites_grow ctx ags env env' k hok hk⟩

/-- Witness for C9: "b1" has render entities, the snapshot mentions only
"a1" — after the update "a1" was created and every "b1" binding is
untouched. -/
theorem c9_absent_agent_untouched_witness :
    stW.agents = some [("a1", agOk)] ∧
    getKey "b1" [("a1", agOk)] = none ∧
    updateAgents ctxW (some stW) envB = Except.ok envBafter ∧
    (getKey "b1" envB.sprites).isSome = true ∧
    (getKey "b1" envBafter.sprites = getKey "b1" envB.sprites ∧
      getKey "b1" envBafter.labels = getKey "b1" envB.labels ∧
      getKey "b1" envBafter.emojis = getKey "b1" envB.emojis ∧
      getKey "b1" envBafter.targets = getKey "b1" envB.targets ∧
      (getKey "b1" envBafter.sprites).isSome = true) :=
  ⟨rfl, rfl, rfl, rfl,
    c9_absent_agent_untouched ctxW stW [("a1", agOk)] envB envBafter "b1" "b1"
      rfl rfl rfl rfl⟩

/-- The rounded trust percentage exceeds 60 exactly when the trust level is
at least 0.605. -/
theorem trustPct_gt60_iff (t : ℚ) : 60 < trustPctOf t ↔ 121 / 200 ≤ t := by
  unfold trustPctOf jsRound
  rw [Int.lt_floor_iff]
  push_cast
  constructor <;> intro <;> linarith

/-- The rounded trust percentage exceeds 80 exactly when the trust level is
at least 0.805. -/
theorem trustPct_gt80_iff (t : ℚ) : 80 < trustPctOf t ↔ 161 / 200 ≤ t := by
  unfold trustPctOf jsRound
  rw [Int.lt_floor_iff]
  push_cast
  constructor <;> intro <;> linarith

/-- Claim C2 (amended): the trust-bar color is a function of the rounded
integer percentage `Math.round(100·trust)`, so the effective boundaries on
the trust level are 0.605 and 0.805: below 0.605 the default color, from
0.605 up to (excluding) 0.805 the warning color, from 0.805 the critical
color.  In particular 0.60 and 0.80 still fall in the lower tiers, but
trust values in (0.60, 0.605) and (0.80, 0.805) also do, contradicting the
claimed strict boundaries at 0.60/0.80 (see the counterexample). -/
theorem c2_trust_tier_boundaries (t : ℚ) :
    trustColorOf t =
      if (161 / 200 : ℚ) ≤ t then "#ff0000"
      else if (121 / 200 : ℚ) ≤ t then "#ff6600"
      else "#3498db" := by
  have h60 := trustPct_gt60_iff t
  have h80 := trustPct_gt80_iff t
  by_cases hA : (161 / 200 : ℚ) ≤ t
  · rw [if_pos hA]
    simp only [trustColorOf]
    rw [if_pos (h80.mpr hA)]
  · rw [if_neg hA]
    by_cases hB : (121 / 200 : ℚ) ≤ t
    · rw [if_pos hB]
      simp only [trustColorOf]
      rw [if_neg (fun hx => hA (h80.mp hx)), if_pos (h60.mpr hB)]
    · rw [if_neg hB]
      simp only [trustColorOf]
      rw [if_neg (fun hx => hA (h80.mp hx)), if_neg (fun hx => hB (h60.mp hx))]

/-- Counterexample for C2 as stated: the trust level 0.801 is strictly
above 0.80 yet its target card renders the warning color, not the critical
one, because `Math.round(80.1) = 80` fails the strict `> 80` test. -/
theorem c2_trust_above_080_not_critical :
    (4 / 5 : ℚ) < 801 / 1000 ∧
    trustColorOfTarget ⟨"T", some (801 / 1000), 2⟩ = "#ff6600" := by
  constructor
  · norm_num
  · have hfl : trustPctOf (801 / 1000) = 80 := by
      unfold trustPctOf jsRound
      rw [Int.floor_eq_iff]
      constructor <;> norm_num
    simp only [trustColorOfTarget, Option.getD, trustColorOf, hfl]
    norm_num

/-- The squared distance is nonnegative. -/
theorem distSq_nonneg (t p : Vec) : 0 ≤ distSq t p :=
  add_nonneg (mul_self_nonneg _) (mul_self_nonneg _)

/-- The squared distance of a point to itself is zero. -/
theorem distSq_self (t : Vec) : distSq t t = 0 := by
  simp [distSq]

/-- At or below the snap threshold, the frame update snaps exactly to the
target. -/
theorem frameStep_near (t p : Vec) (h : distSq t p ≤ 4) : frameStep t p = t := by
  have h' : ¬ 4 < (t.x - p.x) * (t.x - p.x) + (t.y - p.y) * (t.y - p.y) := by
    simp only [distSq] at h
    exact not_lt.mpr h
  simp only [frameStep]
  rw [if_neg h']

/-- The target is a fixed point of the frame update. -/
theorem frameStep_self (t : Vec) : frameStep t t = t :=
  frameStep_near t t (by rw [distSq_self]; norm_num)

/-- Above the snap threshold, one frame scales the squared distance by
exactly (1 − K)² = (19/20)² = 361/400. -/
theorem frameStep_far (t p : Vec) (h : 4 < distSq t p) :
    distSq t (frameStep t p) = 361 / 400 * distSq t p := by
  have h' : 4 < (t.x - p.x) * (t.x - p.x) + (t.y - p.y) * (t.y - p.y) := by
    simpa [distSq] using h
  simp only [frameStep]
  rw [if_pos h']
  simp only [distSq]
  ring

/-- After n frames the position has either already snapped to the target or
its squared distance has decayed geometrically. -/
theorem iterateFrames_decay (t p : Vec) :
    ∀ n : Nat, iterateFrames t n p = t ∨
      distSq t (iterateFrames t n p) = (361 / 400) ^ n * distSq t p := by
  intro n
  induction n with
  | zero =>
    right
    simp [iterateFrames]
  | succ n ih =>
    cases ih with
    | inl h =>
      left
      simp only [iterateFrames]
      rw [h]
      exact frameStep_self t
    | inr h =>
      by_cases hle : distSq t (iterateFrames t n p) ≤ 4
      · left
        simp only [iterateFrames]
        rw [frameStep_near t _ hle]
      · right
        simp only [iterateFrames]
        rw [frameStep_far t _ (not_le.mp hle), h]
        ring

/-- Once snapped to the target, the position stays there forever. -/
theorem iterateFrames_absorb (t p : Vec) (n : Nat) (h : iterateFrames t n p = t) :
    ∀ m, n ≤ m → iterateFrames t m p = t := by
  intro m hm
  induction m with
  | zero =>
    have h0 : n = 0 := Nat.le_zero.mp hm
    rw [h0] at h
    exact h
  | succ m ih =>
    rcases Nat.lt_or_ge n (m + 1) with hlt | hge
    · have := ih (Nat.lt_succ_iff.mp hlt)
      simp only [iterateFrames]
      rw [this]
      exact frameStep_self t
    · have hnm : n = m + 1 := le_antisymm hm hge
      rw [← hnm]
      exact h

/-- Claim C7: starting at or beyond the snap threshold, each frame shrinks
the squared distance to at most (1 − K)² of its value (so the distance
strictly decreases), and after finitely many frames the position snaps
exactly onto the target and stays there. -/
theorem c7_smoothing_converges (target pos : Vec) (h : 4 ≤ distSq target pos) :
    distSq target (frameStep target pos) ≤ 361 / 400 * distSq target pos ∧
    distSq target (frameStep target pos) < distSq target pos ∧
    ∃ n, iterateFrames target n pos = target ∧
      ∀ m, n ≤ m → iterateFrames target m pos = target := by
  have hpos : (0 : ℚ) < distSq target pos := lt_of_lt_of_le (by norm_num) h
  refine ⟨?_, ?_, ?_⟩
  · by_cases hlt : 4 < distSq target pos
    · exact le_of_eq (frameStep_far target pos hlt)
    · have heq : distSq target pos = 4 := le_antisymm (not_lt.mp hlt) h
      rw [frameStep_near target pos (le_of_eq heq), distSq_self, heq]
      norm_num
  · by_cases hlt : 4 < distSq target pos
    · rw [frameStep_far target pos hlt]
      linarith
    · rw [frameStep_near target pos (not_lt.mp hlt), distSq_self]
      exact hpos
  · obtain ⟨n, hn⟩ :=
      exists_pow_lt_of_lt_one (x := 4 / distSq target pos) (y := (361 / 400 : ℚ))
        (by positivity) (by norm_num)
    have hbound : (361 / 400 : ℚ) ^ n * distSq target pos < 4 := (lt_div_iff₀ hpos).mp hn
    cases iterateFrames_decay target pos n with
    | inl hit => exact ⟨n, hit, iterateFrames_absorb target pos n hit⟩
    | inr hd =>
      have hle : distSq target (iterateFrames target n pos) ≤ 4 := by
        rw [hd]
        exact le_of_lt hbound
      have hit : iterateFrames target (n + 1) pos = target := by
        simp only [iterateFrames]
        exact frameStep_near target _ hle
      exact ⟨n + 1, hit, iterateFrames_absorb target pos (n + 1) hit⟩

/-- Witness for C7 at a concrete start 6 pixels from the target. -/
theorem c7_smoothing_converges_witness :
    4 ≤ distSq ⟨0, 0⟩ ⟨6, 0⟩ ∧
    (distSq ⟨0, 0⟩ (frameStep ⟨0, 0⟩ ⟨6, 0⟩) ≤ 361 / 400 * distSq ⟨0, 0⟩ ⟨6, 0⟩ ∧
      distSq ⟨0, 0⟩ (frameStep ⟨0, 0⟩ ⟨6, 0⟩) < distSq ⟨0, 0⟩ ⟨6, 0⟩ ∧
      ∃ n, iterateFrames ⟨0, 0⟩ n ⟨6, 0⟩ = ⟨0, 0⟩ ∧
        ∀ m, n ≤ m → iterateFrames ⟨0, 0⟩ m ⟨6, 0⟩ = ⟨0, 0⟩) :=
  ⟨by norm_num [distSq], c7_smoothing_converges ⟨0, 0⟩ ⟨6, 0⟩ (by norm_num [distSq])⟩

/-- Claim C8: above the snap threshold the code's per-frame direction
choice agrees with the claimed inference table — strict horizontal
dominance picks right/left by the sign of dx, everything else (ties
included) picks down/up by the sign of dy — and at zero displacement the
frame yields the idle state. -/
theorem c8_direction_inference (dx dy : ℚ) (h : 4 < dx * dx + dy * dy) :
    claimDirection dx dy = some (animForDisp dx dy) ∧ animForDisp 0 0 = AnimState.idle := by
  constructor
  · simp only [animForDisp]
    rw [if_pos h]
    by_cases h1 : |dy| < |dx|
    · by_cases h2 : 0 < dx
      · simp [claimDirection, h1, h2]
      · have hne : dx ≠ 0 := by
          intro h0
          rw [h0, abs_zero] at h1
          exact absurd h1 (not_lt.mpr (abs_nonneg dy))
        have h3 : dx < 0 := lt_of_le_of_ne (not_lt.mp h2) hne
        simp [claimDirection, h1, h2, h3]
    · by_cases h2 : 0 < dy
      · simp [claimDirection, h1, h2]
      · have hne : dy ≠ 0 := by
          intro h0
          rw [h0, abs_zero] at h1
          have hdx : dx = 0 := abs_nonpos_iff.mp (not_lt.mp h1)
          rw [h0, hdx] at h
          norm_num at h
        have h3 : dy < 0 := lt_of_le_of_ne (not_lt.mp h2) hne
        simp [claimDirection, h1, h2, h3]
  · norm_num [animForDisp]

/-- Witness for C8 at the concrete displacement (5, 1). -/
theorem c8_direction_inference_witness :
    4 < (5 : ℚ) * 5 + 1 * 1 ∧
    (claimDirection 5 1 = some (animForDisp 5 1) ∧ animForDisp 0 0 = AnimState.idle) :=
  ⟨by norm_num, c8_direction_inference 5 1 (by norm_num)⟩

/-- Claim C10: starting from any state satisfying the timer invariant,
`startPolling` first clears the previously stored interval handle, so
afterwards exactly one polling timer is active (the freshly installed one)
and the invariant is preserved — repeated calls never multiply the polling
rate. -/
theorem c10_single_poll_timer (w : TimerWorld) (h : timerInv w) :
    timerInv (startPolling w) ∧ (startPolling w).active = [w.nextId] ∧
      (startPolling w).pollHandle = some w.nextId := by
  obtain ⟨hall, _⟩ := h
  have hsp : startPolling w = ⟨w.nextId + 1, [w.nextId], some w.nextId⟩ := by
    cases hp : w.pollHandle with
    | none =>
      have hnil : w.active = [] :=
        List.eq_nil_iff_forall_not_mem.mpr (fun a ha => by
          have := hall a ha
          rw [hp] at this
          cases this)
      simp [startPolling, hp, setIntervalTimer, hnil]
    | some h0 =>
      simp [startPolling, hp, clearIntervalTimer, setIntervalTimer, List.filter_eq_nil_iff]
      intro a ha
      have := hall a ha
      rw [hp] at this
      exact (Option.some_inj.mp this).symm
  rw [hsp]
  refine ⟨⟨?_, ?_⟩, rfl, rfl⟩
  · intro i hi
    have : i = w.nextId := by
      cases hi with
      | head => rfl
      | tail _ hmem => cases hmem
    rw [this]
  · exact List.nodup_singleton _

/-- Witness for C10 at a concrete initial timer state. -/
theorem c10_single_poll_timer_witness :
    timerInv ⟨1, [], none⟩ ∧
    (timerInv (startPolling ⟨1, [], none⟩) ∧
      (startPolling ⟨1, [], none⟩).active = [(1 : Nat)] ∧
      (startPolling ⟨1, [], none⟩).pollHandle = some 1) :=
  ⟨⟨fun i hi => absurd hi (List.not_mem_nil i), List.nodup_nil⟩,
    c10_single_poll_timer ⟨1, [], none⟩
      ⟨fun i hi => absurd hi (List.not_mem_nil i), List.nodup_nil⟩⟩

/-- Loading the history list always issues exactly one additional list
read, whatever the response is. -/
theorem loadHistoryList_fetches (r : Option HistoryMsg) (s : HState) :
    (loadHistoryList r s).fetches = s.fetches ++ [FetchReq.history] := by
  cases r with
  | none => rfl
  | some d =>
    cases hd : d.runs with
    | none => simp [loadHistoryList, hd]
    | some rs =>
      by_cases hl : rs.length = 0
      · simp [loadHistoryList, hd, hl]
      · simp [loadHistoryList, hd, hl]

/-- Claim C4 (amended): activating the history tab is guarded by the
`_historyLoaded` flag, so a first activation issues exactly one list read
and any further activation issues none; but the back action re-invokes
`loadHistoryList`, which always fetches, so going back issues one more list
read — the run list itself is never cached (see the counterexample). -/
theorem c4_history_list_fetches (s : HState) (r r1 r2 r3 : Option HistoryMsg)
    (h : s.historyLoaded = true) :
    clickHistoryTab r s = s ∧
    (clickHistoryTab r1 (clickHistoryTab r s)).fetches = s.fetches ∧
    (clickBack r2 s).fetches = s.fetches ++ [FetchReq.history] ∧
    (clickHistoryTab r3 ⟨false, [], HPanel.blank⟩).fetches = [FetchReq.history] ∧
    (clickHistoryTab r3 ⟨false, [], HPanel.blank⟩).historyLoaded = true := by
  have h1 : clickHistoryTab r s = s := by simp [clickHistoryTab, h]
  have h2 : clickHistoryTab r1 s = s := by simp [clickHistoryTab, h]
  refine ⟨h1, ?_, loadHistoryList_fetches r2 s, ?_, ?_⟩
  · rw [h1, h2]
  · simp [clickHistoryTab, loadHistoryList_fetches]
  · simp [clickHistoryTab]

/-- Witness for C4 at a concrete already-loaded history state. -/
theorem c4_history_list_fetches_witness :
    sLoaded.historyLoaded = true ∧
    (clickHistoryTab histResp sLoaded = sLoaded ∧
      (clickHistoryTab histResp (clickHistoryTab histResp sLoaded)).fetches = sLoaded.fetches ∧
      (clickBack histResp sLoaded).fetches = sLoaded.fetches ++ [FetchReq.history] ∧
      (clickHistoryTab histResp ⟨false, [], HPanel.blank⟩).fetches = [FetchReq.history] ∧
      (clickHistoryTab histResp ⟨false, [], HPanel.blank⟩).historyLoaded = true) :=
  ⟨rfl, c4_history_list_fetches sLoaded histResp histResp histResp histResp rfl⟩

/-- Counterexample for C4 as stated: in the session trace "activate history
tab, select run R1, press back" the back action issues a second list read —
the trace's reads are list, detail R1, list again — whereas the claim says
the back action returns to the cached list without another list fetch. -/
theorem c4_back_refetches_list :
    (clickBack histResp (clickHistoryEntry "R1" runResp
        (clickHistoryTab histResp ⟨false, [], HPanel.blank⟩))).fetches =
      [FetchReq.history, FetchReq.historyRun "R1", FetchReq.history] ∧
    (clickBack histResp (clickHistoryEntry "R1" runResp
        (clickHistoryTab histResp ⟨false, [], HPanel.blank⟩))).fetches.count
      FetchReq.history = 2 := by
  exact ⟨by decide, by decide⟩

/-- Counting `<` distributes over string concatenation. -/
theorem countLt_append (s t : String) : countLt (s ++ t) = countLt s + countLt t := by
  rcases s with ⟨a⟩
  rcases t with ⟨b⟩
  show (a ++ b).count '<' = a.count '<' + b.count '<'
  exact List.count_append '<' a b

/-- An escaped character contributes no `<` to the output. -/
theorem countLt_escapeChar (c : Char) : (escapeChar c).count '<' = 0 := by
  unfold escapeChar
  by_cases h1 : c = '&'
  · rw [if_pos h1]
    decide
  · rw [if_neg h1]
    by_cases h2 : c = '<'
    · rw [if_pos h2]
      decide
    · rw [if_neg h2]
      by_cases h3 : c = '>'
      · rw [if_pos h3]
        decide
      · rw [if_neg h3]
        simp [List.count_cons, h2]

/-- Escaped text contributes no `<` at all to the rendered output: one
sanitization pass removes every structure-significant opening. -/
theorem countLt_escapeHtml (s : String) : countLt (escapeHtml s) = 0 := by
  show ((String.mk (s.data.flatMap escapeChar)).data).count '<' = 0
  show (s.data.flatMap escapeChar).count '<' = 0
  induction s.data with
  | nil => rfl
  | cons c cs ih =>
    rw [List.flatMap_cons, List.count_append, ih, countLt_escapeChar]

/-- Claim C1 (amended): in the event log and the roster cards, each
free-text field rendered as element text (the event content; the agent
name, location and activity in the card body) passes through exactly one
`_escapeHtml` step and therefore contributes zero `<` characters to the
output — every `<` of the rendered markup is accounted for by the fixed
template (4 tags' worth for an event entry, 21 for a card) plus the fields
that are interpolated raw: the event's category tag and timestamp, and the
card's id, type class (three placements), sprite key, and — the flaw the
counterexample isolates — the display name inside the `alt` attribute. -/
theorem c1_single_escape_accounting (e : EventRecord) (id : String) (a : AgentEntry)
    (px py : Int) :
    countLt (renderEventEntry e) = 4 + countLt e.type + countLt (jsOr e.timestamp "") ∧
    countLt (agentCardHtml id a px py) =
      21 + countLt id + 3 * countLt (jsOr a.type "benign") + countLt a.sprite +
        countLt a.name + countLt (toString px) + countLt (toString py) := by
  have e1 : countLt "<div class=\"event-entry " = 1 := rfl
  have e2 : countLt "evt-" = 0 := rfl
  have e3 : countLt "\">" = 0 := rfl
  have e4 : countLt "<span class=\"timestamp\">" = 1 := rfl
  have e5 : countLt "</span>" = 1 := rfl
  have e6 : countLt "</div>" = 1 := rfl
  have a1 : countLt "<div class=\"agent-card " = 1 := rfl
  have a2 : countLt "\" data-agent-id=\"" = 0 := rfl
  have a3 : countLt "  <div class=\"agent-card-header\">" = 1 := rfl
  have a4 : countLt "    <img class=\"agent-portrait\" src=\"" = 1 := rfl
  have a5 : countLt "/assets/characters/profile/" = 0 := rfl
  have a6 : countLt ".png" = 0 := rfl
  have a7 : countLt "\" alt=\"" = 0 := rfl
  have a8 : countLt "\" onerror=\"this.style.display=\x27none\x27\">" = 0 := rfl
  have a9 : countLt "    <span class=\"agent-name\">" = 1 := rfl
  have a10 : countLt "    <span class=\"agent-type-badge " = 1 := rfl
  have a11 : countLt "  </div>" = 1 := rfl
  have a12 : countLt "  <div class=\"agent-detail\"><strong>Location:</strong> " = 3 := rfl
  have a13 : countLt "  <div class=\"agent-detail\"><strong>Activity:</strong> " = 3 := rfl
  have a14 : countLt "  <div class=\"agent-detail\"><strong>Pos:</strong> (" = 3 := rfl
  have a15 : countLt ", " = 0 := rfl
  have a16 : countLt ")</div>" = 1 := rfl
  constructor
  · simp only [renderEventEntry, countLt_append, countLt_escapeHtml,
      e1, e2, e3, e4, e5, e6]
    omega
  · simp only [agentCardHtml, countLt_append, countLt_escapeHtml,
      a1, a2, a3, a4, a5, a6, a7, a8, a9, a10, a11, a12, a13, a14, a15, a16, e3, e5, e6]
    omega

set_option maxRecDepth 20000 in
/-- Counterexample for C1 as stated: for an agent whose display name is
"<x>", the rendered roster card differs from the spec-mandated rendering in
which every free-text field is escaped exactly once — the code interpolates
the raw name into the portrait's `alt` attribute with zero escaping steps,
so the markup-significant `<` of the name reaches the output and opens a
tag there (the card's `<`-count is 22 instead of the 21 template tags). -/
theorem c1_unescaped_name_in_alt :
    agentCardHtml "a1" agCex 2 3 ≠ agentCardHtmlSpec "a1" agCex 2 3 := by
  intro h
  have hc : (22 : Nat) = 21 := by
    calc (22 : Nat) = countLt (agentCardHtml "a1" agCex 2 3) := by rfl
      _ = countLt (agentCardHtmlSpec "a1" agCex 2 3) := congrArg countLt h
      _ = 21 := by rfl
  exact absurd hc (by decide)
